import Mathlib

/-!
Shallow embedding of the zeroize-alloc crate (src/lib.rs): a zeroizing
allocator adapter.  The crate exposes two adapters, `ZeroizingAllocator`
(over the `Allocator` trait) and `ZeroizingGlobalAllocator` (over the
`GlobalAlloc` trait), both delegating allocation unchanged and zeroing a
block with the volatile `zero` primitive before forwarding deallocation.

Modelling choices:
* Addresses and byte values are `Nat`; the machine has 64-bit pointers, so
  pointer arithmetic wraps modulo `2 ^ 64` and `usize → isize` casts are
  two's-complement reinterpretations, made explicit below.
* Memory is a total map `Nat → Nat` from addresses to byte values.
* Besides its effect on memory, each adapter operation is given an event
  trace recording the volatile stores, the compiler fence, and the
  forwarded call to the wrapped allocator, in program order.
* The wrapped allocator is an opaque record of functions over its own
  state type `σ`; it owns no bytes of the model memory, so the memory an
  adapter call returns is the memory at the instant the call returns,
  before any reuse by the wrapped allocator.
-/

/-- Number of value bits of `isize`: `isize::MAX = 2 ^ 63 - 1` on the
64-bit target modelled here. -/
def isizeMax : Nat := 2 ^ 63 - 1

/-- Size of the address space: pointers are 64 bits. -/
def addrSpace : Nat := 2 ^ 64

/-- Two's-complement reinterpretation of a `usize` value as an `isize`,
modelling the cast `i as isize` in `zero`. -/
def usizeToIsize (i : Nat) : Int :=
  if i < 2 ^ 63 then (i : Int) else (i : Int) - 2 ^ 64

/-- Address reached by `ptr.offset(o)`: pointer arithmetic on the 64-bit
machine, wrapping modulo `2 ^ 64`. -/
def ptrOffset (ptr : Nat) (o : Int) : Nat :=
  (((ptr : Int) + o) % (2 ^ 64 : Int)).toNat

/-- Address written by iteration `i` of the loop in `zero`:
`ptr.offset(i as isize)`. -/
def storeAddr (ptr i : Nat) : Nat :=
  ptrOffset ptr (usizeToIsize i)

/-- Machine memory: a total map from addresses to byte values. -/
abbrev Mem : Type := Nat → Nat

/-- Store value `v` at address `a`. -/
def writeByte (m : Mem) (a v : Nat) : Mem :=
  fun x => if x = a then v else m x

/-- Observable events of an adapter operation, in program order.
`store` is a volatile (non-elidable) byte store, `fence` the
`compiler_fence(SeqCst)` call; the `fwd*` events record the call
forwarded to the wrapped allocator together with its arguments. -/
inductive Event : Type where
  | store (addr : Nat) (val : Nat)
  | fence
  | fwdAllocate (size align : Nat)
  | fwdDeallocate (addr : Nat) (size align : Nat)
  | fwdAlloc (size align : Nat)
  | fwdDealloc (addr : Nat) (size align : Nat)
  | fwdAllocZeroed (size align : Nat)
deriving DecidableEq

/-- Whether an event is a forwarded call to the wrapped allocator. -/
def Event.isForward : Event → Bool
  | .fwdAllocate _ _ => true
  | .fwdDeallocate _ _ _ => true
  | .fwdAlloc _ _ => true
  | .fwdDealloc _ _ _ => true
  | .fwdAllocZeroed _ _ => true
  | _ => false

/-- Effect on memory of the loop `for i in 0..size` of `zero`: iteration
`i` performs `write_volatile(ptr.offset(i as isize), 0)`; the recursive
call performs iterations `0..n` and the outer `writeByte` is iteration
`n`, executed last, matching the loop order. -/
def zeroLoop (m : Mem) (ptr : Nat) : Nat → Mem
  | 0 => m
  | n + 1 => writeByte (zeroLoop m ptr n) (storeAddr ptr n) 0

/-- Effect on memory of `zero(ptr, size)` (src/lib.rs lines 11-16): the
volatile store loop followed by `compiler_fence`, which does not touch
memory. -/
def zero (m : Mem) (ptr size : Nat) : Mem :=
  zeroLoop m ptr size

/-- Event trace of `zero(ptr, size)`: one volatile zero store per loop
iteration, in loop order, then the compiler fence. -/
def zeroEvents (ptr size : Nat) : List Event :=
  (List.range size).map (fun i => Event.store (storeAddr ptr i) 0) ++ [Event.fence]

/-- Interpretation of one event on memory: a store writes a byte, the
fence and the forwarded calls leave the model memory unchanged (the
wrapped allocator owns no bytes of the model memory). -/
def applyEvent (m : Mem) : Event → Mem
  | .store a v => writeByte m a v
  | _ => m

/-- Consistency of the two views of `zero`: folding its event trace over
memory computes exactly its memory effect. -/
theorem zero_eq_foldl_zeroEvents (m : Mem) (ptr size : Nat) :
    (zeroEvents ptr size).foldl applyEvent m = zero m ptr size := by
  induction size with
  | zero => rfl
  | succ n ih =>
    have h : zeroEvents ptr (n + 1) =
        ((List.range n).map (fun i => Event.store (storeAddr ptr i) 0))
          ++ ([Event.store (storeAddr ptr n) 0] ++ [Event.fence]) := by
      simp [zeroEvents, List.range_succ]
    rw [h]
    rw [List.foldl_append]
    have h2 : zeroEvents ptr n =
        ((List.range n).map (fun i => Event.store (storeAddr ptr i) 0))
          ++ [Event.fence] := rfl
    have h3 : ((List.range n).map (fun i => Event.store (storeAddr ptr i) 0)).foldl
        applyEvent m = zero m ptr n := by
      have := ih
      rw [h2, List.foldl_append] at this
      simpa [applyEvent] using this
    rw [h3]
    simp [applyEvent, zero, zeroLoop]

/-- Rust `core::alloc::Layout`: a (size, alignment) request descriptor. -/
structure Layout : Type where
  size : Nat
  align : Nat
deriving DecidableEq

/-- Validity invariant of `core::alloc::Layout`: the alignment is a power
of two, and the size, rounded up to the nearest multiple of the
alignment, does not overflow `isize` (i.e. is at most `isize::MAX`). -/
def Layout.isValid (l : Layout) : Prop :=
  (∃ k, l.align = 2 ^ k) ∧ (l.size + (l.align - 1)) / l.align * l.align ≤ isizeMax

/-- Rust `core::alloc::AllocError`: the zero-size error type of the
`Allocator` trait's structured failure result. -/
inductive AllocError : Type where
  | mk
deriving DecidableEq

/-- The wrapped `Allocator`-trait capability, opaque to the adapter: its
operations are arbitrary functions over its own state type `σ`.
`allocate` returns a structured result — a (pointer, slice length) pair
for the `NonNull<[u8]>` block on success, or `AllocError` — plus its next
state; `deallocate` returns its next state. -/
structure WrappedAllocator (σ : Type) : Type where
  allocate : σ → Layout → Except AllocError (Nat × Nat) × σ
  deallocate : σ → Nat → Layout → σ

/-- The wrapped `GlobalAlloc`-trait capability: raw-pointer interface,
failure signalled by the null (0) sentinel address. -/
structure WrappedGlobalAlloc (σ : Type) : Type where
  alloc : σ → Layout → Nat × σ
  dealloc : σ → Nat → Layout → σ
  alloc_zeroed : σ → Layout → Nat × σ

/-- `ZeroizingAllocator<A>(pub A)` (src/lib.rs line 8): a tuple struct
whose only field is the wrapped allocator. -/
structure ZeroizingAllocator (σ : Type) : Type where
  wrapped : WrappedAllocator σ

/-- `ZeroizingGlobalAllocator<A>(pub A)` (src/lib.rs line 6): a tuple
struct whose only field is the wrapped allocator. -/
structure ZeroizingGlobalAllocator (σ : Type) : Type where
  wrapped : WrappedGlobalAlloc σ

/-- `ZeroizingAllocator::allocate` (src/lib.rs lines 23-25):
`self.0.allocate(layout)` — pure delegation.  Returns the wrapped
allocator's result and next state, and the event trace of the call. -/
def ZeroizingAllocator.allocate (Z : ZeroizingAllocator σ) (s : σ) (l : Layout) :
    (Except AllocError (Nat × Nat) × σ) × List Event :=
  (Z.wrapped.allocate s l, [Event.fwdAllocate l.size l.align])

/-- `ZeroizingAllocator::deallocate` (src/lib.rs lines 28-32):
`zero(ptr.as_ptr(), layout.size())` then `self.0.deallocate(ptr, layout)`.
Returns the wrapped allocator's next state, the memory at the instant the
call returns, and the event trace of the call. -/
def ZeroizingAllocator.deallocate (Z : ZeroizingAllocator σ) (s : σ) (m : Mem)
    (ptr : Nat) (l : Layout) : σ × Mem × List Event :=
  (Z.wrapped.deallocate s ptr l, zero m ptr l.size,
    zeroEvents ptr l.size ++ [Event.fwdDeallocate ptr l.size l.align])

/-- `ZeroizingGlobalAllocator::alloc` (src/lib.rs lines 40-42):
`self.0.alloc(layout)` — pure delegation. -/
def ZeroizingGlobalAllocator.alloc (Z : ZeroizingGlobalAllocator σ) (s : σ) (l : Layout) :
    (Nat × σ) × List Event :=
  (Z.wrapped.alloc s l, [Event.fwdAlloc l.size l.align])

/-- `ZeroizingGlobalAllocator::dealloc` (src/lib.rs lines 45-49):
`zero(ptr, layout.size())` then `self.0.dealloc(ptr, layout)`.  The
forward is under `#[cfg(not(test))]`; this models the non-test (library)
configuration, where it is compiled in. -/
def ZeroizingGlobalAllocator.dealloc (Z : ZeroizingGlobalAllocator σ) (s : σ) (m : Mem)
    (ptr : Nat) (l : Layout) : σ × Mem × List Event :=
  (Z.wrapped.dealloc s ptr l, zero m ptr l.size,
    zeroEvents ptr l.size ++ [Event.fwdDealloc ptr l.size l.align])

/-- `ZeroizingGlobalAllocator::alloc_zeroed` (src/lib.rs lines 52-54):
`self.0.alloc_zeroed(layout)` — pure delegation. -/
def ZeroizingGlobalAllocator.alloc_zeroed (Z : ZeroizingGlobalAllocator σ) (s : σ)
    (l : Layout) : (Nat × σ) × List Event :=
  (Z.wrapped.alloc_zeroed s l, [Event.fwdAllocZeroed l.size l.align])

/-- A concrete wrapped allocator over state `Nat` (a bump pointer), used
to instantiate the parametric theorems on closed inputs. -/
def demoAllocator : WrappedAllocator Nat :=
  ⟨fun s l => (Except.ok (s, l.size), s + l.size), fun s _ _ => s⟩

/-- A concrete wrapped allocator that always fails with `AllocError`. -/
def failAllocator : WrappedAllocator Nat :=
  ⟨fun s _ => (Except.error AllocError.mk, s), fun s _ _ => s⟩

/-- A concrete wrapped global allocator over state `Nat`. -/
def demoGlobalAlloc : WrappedGlobalAlloc Nat :=
  ⟨fun s l => (s, s + l.size), fun s _ _ => s, fun s l => (s, s + l.size)⟩

/-- A concrete wrapped global allocator that always returns the null
sentinel address. -/
def nullGlobalAlloc : WrappedGlobalAlloc Nat :=
  ⟨fun s _ => (0, s), fun s _ _ => s, fun s _ => (0, s)⟩

/-- For loop indices up to `isize::MAX` the cast `i as isize` is the
identity (no two's-complement wrap to a negative value). -/
theorem usizeToIsize_eq_of_le (i : Nat) (hi : i ≤ isizeMax) :
    usizeToIsize i = (i : Int) := by
  have h1 : i < 2 ^ 63 := by
    have : isizeMax < 2 ^ 63 := by norm_num [isizeMax]
    omega
  rw [usizeToIsize, if_pos h1]

/-- When the index stays within `isize::MAX` and the target address does
not leave the address space, iteration `i` of the loop stores exactly at
`ptr + i`. -/
theorem storeAddr_eq (ptr i : Nat) (hi : i ≤ isizeMax) (hfit : ptr + i < 2 ^ 64) :
    storeAddr ptr i = ptr + i := by
  rw [storeAddr, usizeToIsize_eq_of_le i hi, ptrOffset]
  have h3 : ((ptr : Int) + (i : Int)) % (2 ^ 64 : Int) = (ptr : Int) + (i : Int) := by
    apply Int.emod_eq_of_lt
    · positivity
    · push_cast
      exact_mod_cast hfit
  rw [h3]
  omega

/-- A byte targeted by some loop iteration reads 0 after `zero`. -/
theorem zero_apply_hit (m : Mem) (ptr a : Nat) :
    ∀ size, (∃ j, j < size ∧ storeAddr ptr j = a) → zero m ptr size a = 0 := by
  intro size
  induction size with
  | zero =>
    rintro ⟨j, hj, _⟩
    omega
  | succ n ih =>
    rintro ⟨j, hj, hja⟩
    by_cases hcase : a = storeAddr ptr n
    · simp [zero, zeroLoop, writeByte, hcase]
    · have hjn : j < n := by
        rcases Nat.lt_succ_iff_lt_or_eq.mp hj with h' | h'
        · exact h'
        · exact absurd (h' ▸ hja).symm hcase
      simpa [zero, zeroLoop, writeByte, hcase] using ih ⟨j, hjn, hja⟩

/-- A byte targeted by no loop iteration is left unchanged by `zero`. -/
theorem zero_apply_miss (m : Mem) (ptr a : Nat) :
    ∀ size, (∀ j, j < size → storeAddr ptr j ≠ a) → zero m ptr size a = m a := by
  intro size
  induction size with
  | zero =>
    intro _
    rfl
  | succ n ih =>
    intro h
    have hne : a ≠ storeAddr ptr n := fun hc => h n (Nat.lt_succ_self n) hc.symm
    simpa [zero, zeroLoop, writeByte, hne] using
      ih (fun j hj => h j (Nat.lt_succ_of_lt hj))

/-- Every byte of a non-wrapping block `[ptr, ptr + size)` reads 0 after
`zero(ptr, size)`. -/
theorem zero_reads_zero (m : Mem) (ptr size a : Nat)
    (hmax : size ≤ isizeMax) (hfit : ptr + size ≤ 2 ^ 64)
    (ha : ptr ≤ a) (hb : a < ptr + size) : zero m ptr size a = 0 := by
  apply zero_apply_hit m ptr a size
  refine ⟨a - ptr, by omega, ?_⟩
  rw [storeAddr_eq ptr (a - ptr) (by omega) (by omega)]
  omega

/-- Every byte outside the block `[ptr, ptr + size)` is unchanged by
`zero(ptr, size)`. -/
theorem zero_frame (m : Mem) (ptr size a : Nat)
    (hmax : size ≤ isizeMax) (hfit : ptr + size ≤ 2 ^ 64)
    (ha : a < ptr ∨ ptr + size ≤ a) : zero m ptr size a = m a := by
  apply zero_apply_miss m ptr a size
  intro j hj
  rw [storeAddr_eq ptr j (by omega) (by omega)]
  omega

/-- Every event of the `zero` trace is the fence or a volatile store of
the byte 0. -/
theorem zeroEvents_shape (ptr size : Nat) :
    ∀ e ∈ zeroEvents ptr size, e = Event.fence ∨ ∃ a, e = Event.store a 0 := by
  intro e he
  rw [zeroEvents, List.mem_append] at he
  rcases he with he | he
  · obtain ⟨i, _, hi⟩ := List.mem_map.mp he
    exact Or.inr ⟨storeAddr ptr i, hi.symm⟩
  · simp only [List.mem_singleton] at he
    exact Or.inl he

/-- The compiler fence is the last event of the `zero` trace: every
volatile store is completed before `zero` returns. -/
theorem zeroEvents_getLast (ptr size : Nat) :
    (zeroEvents ptr size).getLast? = some Event.fence := by
  rw [zeroEvents]
  exact List.getLast?_concat _

/-- The `zero` trace contains a volatile store of 0 to every byte of a
non-wrapping block `[ptr, ptr + size)`. -/
theorem zeroEvents_store_mem (ptr size a : Nat)
    (hmax : size ≤ isizeMax) (hfit : ptr + size ≤ 2 ^ 64)
    (ha : ptr ≤ a) (hb : a < ptr + size) :
    Event.store a 0 ∈ zeroEvents ptr size := by
  rw [zeroEvents, List.mem_append]
  left
  rw [List.mem_map]
  refine ⟨a - ptr, List.mem_range.mpr (by omega), ?_⟩
  rw [storeAddr_eq ptr (a - ptr) (by omega) (by omega)]
  congr 1
  omega

/-- The `zero` primitive itself forwards nothing to the wrapped
allocator: its trace has no forward event. -/
theorem zeroEvents_no_forward (ptr size : Nat) :
    (zeroEvents ptr size).filter Event.isForward = [] := by
  rw [List.filter_eq_nil_iff]
  intro e he
  rcases zeroEvents_shape ptr size e he with h | ⟨a, h⟩ <;>
    simp [h, Event.isForward]

/-- The size rounded up to the nearest multiple of a positive alignment
is at least the size. -/
theorem le_roundUp (n a : Nat) (ha : 0 < a) : n ≤ (n + (a - 1)) / a * a := by
  have hdm := Nat.div_add_mod (n + (a - 1)) a
  have hlt : (n + (a - 1)) % a < a := Nat.mod_lt _ ha
  calc n ≤ n + (a - 1) - (n + (a - 1)) % a := by omega
    _ = a * ((n + (a - 1)) / a) := (Nat.eq_sub_of_add_eq hdm).symm
    _ = (n + (a - 1)) / a * a := Nat.mul_comm _ _

/-- A valid layout's size is at most `isize::MAX`. -/
theorem Layout.isValid_size_le (l : Layout) (hv : l.isValid) : l.size ≤ isizeMax := by
  obtain ⟨⟨k, hk⟩, hle⟩ := hv
  have ha : 0 < l.align := by rw [hk]; positivity
  exact le_trans (le_roundUp l.size l.align ha) hle

/-- C1: for every valid layout with positive size and every initial
memory, after `allocate` on the adapter returns the block `(ptr, len)`
and `deallocate` of that block is called, every byte of
`[ptr, ptr + size)` in the memory `deallocate` returns (before any reuse
by the wrapped allocator, which the model gives no bytes of memory)
reads 0.  `hfit` states that the allocated block lies within the 64-bit
address space. -/
theorem C1_deallocate_zeroizes_block {σ : Type} (Z : ZeroizingAllocator σ)
    (s s' : σ) (ev : List Event) (m : Mem) (l : Layout) (ptr len : Nat)
    (halloc : Z.allocate s l = ((Except.ok (ptr, len), s'), ev))
    (hv : l.isValid) (hpos : 0 < l.size) (hfit : ptr + l.size ≤ 2 ^ 64)
    (a : Nat) (ha : ptr ≤ a) (hb : a < ptr + l.size) :
    (Z.deallocate s' m ptr l).2.1 a = 0 :=
  zero_reads_zero m ptr l.size a (Layout.isValid_size_le l hv) hfit ha hb

/-- Witness for C1: a bump allocator wrapped in the adapter; allocate a
4-byte block at address 100 over memory holding byte 222 everywhere,
deallocate it, and read byte 102. -/
theorem C1_deallocate_zeroizes_block_witness :
    ((⟨demoAllocator⟩ : ZeroizingAllocator Nat).deallocate 104
      (fun _ => 222) 100 ⟨4, 1⟩).2.1 102 = 0 :=
  C1_deallocate_zeroizes_block ⟨demoAllocator⟩ 100 104 [Event.fwdAllocate 4 1]
    (fun _ => 222) ⟨4, 1⟩ 100 4 rfl
    ⟨⟨0, rfl⟩, by norm_num [isizeMax]⟩ (by norm_num) (by norm_num)
    102 (by norm_num) (by norm_num)

/-- C6: the zeroing performed on deallocation writes only to the bytes
of the freed block `[ptr, ptr + size)`: every byte outside it — in
particular every byte of any other live block — is unchanged, for both
the scoped `deallocate` and the global `dealloc`. -/
theorem C6_deallocation_frame {σ : Type} (Z : ZeroizingAllocator σ)
    (G : ZeroizingGlobalAllocator σ) (s : σ) (m : Mem) (l : Layout) (ptr a : Nat)
    (hmax : l.size ≤ isizeMax) (hfit : ptr + l.size ≤ 2 ^ 64)
    (ha : a < ptr ∨ ptr + l.size ≤ a) :
    (Z.deallocate s m ptr l).2.1 a = m a ∧ (G.dealloc s m ptr l).2.1 a = m a :=
  ⟨zero_frame m ptr l.size a hmax hfit ha, zero_frame m ptr l.size a hmax hfit ha⟩

/-- Witness for C6: free an 8-byte block A at address 100 while an
8-byte block B lives at address 108; byte 110 of B keeps its value 57. -/
theorem C6_deallocation_frame_witness :
    ((⟨demoAllocator⟩ : ZeroizingAllocator Nat).deallocate 116
        (fun _ => 57) 100 ⟨8, 1⟩).2.1 110 = 57
    ∧ ((⟨demoGlobalAlloc⟩ : ZeroizingGlobalAllocator Nat).dealloc 116
        (fun _ => 57) 100 ⟨8, 1⟩).2.1 110 = 57 :=
  C6_deallocation_frame ⟨demoAllocator⟩ ⟨demoGlobalAlloc⟩ 116 (fun _ => 57)
    ⟨8, 1⟩ 100 110 (by norm_num [isizeMax]) (by norm_num) (by norm_num)

/-- C7: a `zero` call with count 0 performs no byte writes and changes
no memory, and a deallocation of a size-0 block leaves memory unchanged,
emits no store event, and still forwards the same request cleanly to the
wrapped allocator, on both adapters. -/
theorem C7_size_zero_noop {σ : Type} (Z : ZeroizingAllocator σ)
    (G : ZeroizingGlobalAllocator σ) (s : σ) (m : Mem) (ptr : Nat) (l : Layout)
    (h0 : l.size = 0) :
    zero m ptr l.size = m
    ∧ (∀ a v, Event.store a v ∉ zeroEvents ptr l.size)
    ∧ (Z.deallocate s m ptr l).2.1 = m
    ∧ (Z.deallocate s m ptr l).1 = Z.wrapped.deallocate s ptr l
    ∧ (∀ a v, Event.store a v ∉ (Z.deallocate s m ptr l).2.2)
    ∧ (G.dealloc s m ptr l).2.1 = m
    ∧ (G.dealloc s m ptr l).1 = G.wrapped.dealloc s ptr l
    ∧ (∀ a v, Event.store a v ∉ (G.dealloc s m ptr l).2.2) := by
  refine ⟨?_, ?_, ?_, rfl, ?_, ?_, rfl, ?_⟩ <;>
    simp [h0, zero, zeroLoop, zeroEvents, ZeroizingAllocator.deallocate,
      ZeroizingGlobalAllocator.dealloc]

/-- Witness for C7: deallocate a size-0 block at address 50 on both
adapters over memory holding byte 7 everywhere. -/
theorem C7_size_zero_noop_witness :
    ((⟨demoAllocator⟩ : ZeroizingAllocator Nat).deallocate 5
        (fun _ => 7) 50 ⟨0, 1⟩).2.1 = (fun _ => 7)
    ∧ ((⟨demoGlobalAlloc⟩ : ZeroizingGlobalAllocator Nat).dealloc 5
        (fun _ => 7) 50 ⟨0, 1⟩).2.1 = (fun _ => 7) :=
  ⟨(C7_size_zero_noop ⟨demoAllocator⟩ ⟨demoGlobalAlloc⟩ 5 (fun _ => 7) 50
      ⟨0, 1⟩ rfl).2.2.1,
   (C7_size_zero_noop ⟨demoAllocator⟩ ⟨demoGlobalAlloc⟩ 5 (fun _ => 7) 50
      ⟨0, 1⟩ rfl).2.2.2.2.2.1⟩

/-- C9: for loop indices below any size at most `isize::MAX` — a bound
every valid layout's size satisfies — the cast `i as isize` does not
wrap to a negative value and iteration `i` stores exactly at `ptr + i`
(within the address space); the first index at which the cast would wrap
is `isize::MAX + 1`. -/
theorem C9_index_cast_no_wrap (l : Layout) (ptr size : Nat) :
    (l.isValid → l.size ≤ isizeMax)
    ∧ (size ≤ isizeMax → ∀ i, i < size →
        0 ≤ usizeToIsize i ∧ usizeToIsize i = (i : Int))
    ∧ (size ≤ isizeMax → ptr + size ≤ 2 ^ 64 → ∀ i, i < size →
        storeAddr ptr i = ptr + i)
    ∧ usizeToIsize (isizeMax + 1) < 0 := by
  refine ⟨Layout.isValid_size_le l, ?_, ?_, ?_⟩
  · intro hmax i hi
    have h := usizeToIsize_eq_of_le i (by omega)
    exact ⟨h ▸ Int.natCast_nonneg i, h⟩
  · intro hmax hfit i hi
    exact storeAddr_eq ptr i (by omega) (by omega)
  · have h1 : ¬ isizeMax + 1 < 2 ^ 63 := by norm_num [isizeMax]
    rw [usizeToIsize, if_neg h1]
    norm_num [isizeMax]

/-- Witness for C9: for a valid 4-byte layout at address 100, iteration
3 stores at address 103, and the cast wraps at `isize::MAX + 1`. -/
theorem C9_index_cast_no_wrap_witness :
    storeAddr 100 3 = 103 ∧ usizeToIsize (isizeMax + 1) < 0 :=
  ⟨(C9_index_cast_no_wrap ⟨4, 1⟩ 100 4).2.2.1 (by norm_num [isizeMax])
      (by norm_num) 3 (by norm_num),
   (C9_index_cast_no_wrap ⟨4, 1⟩ 100 4).2.2.2⟩

/-- C10: the zero primitive is idempotent on memory: for every address,
count and memory, zeroing twice yields exactly the memory of zeroing
once. -/
theorem C10_zero_idempotent (m : Mem) (ptr size : Nat) :
    zero (zero m ptr size) ptr size = zero m ptr size := by
  funext a
  by_cases h : ∃ j, j < size ∧ storeAddr ptr j = a
  · rw [zero_apply_hit _ ptr a size h, zero_apply_hit _ ptr a size h]
  · push_neg at h
    rw [zero_apply_miss _ ptr a size fun j hj => h j hj]

/-- C2: on both adapters, a deallocation zeroes `l.size` bytes at `ptr`
and then forwards the same request (same address and layout) to the
wrapped allocator: the trace is the `zero` trace followed by exactly one
forward event, which is the last event, and the wrapped allocator's
deallocation is applied to the same arguments. -/
theorem C2_dealloc_zero_then_forward {σ : Type} (Z : ZeroizingAllocator σ)
    (G : ZeroizingGlobalAllocator σ) (s : σ) (m : Mem) (ptr : Nat) (l : Layout) :
    (Z.deallocate s m ptr l).1 = Z.wrapped.deallocate s ptr l
    ∧ (Z.deallocate s m ptr l).2.1 = zero m ptr l.size
    ∧ (Z.deallocate s m ptr l).2.2
        = zeroEvents ptr l.size ++ [Event.fwdDeallocate ptr l.size l.align]
    ∧ (Z.deallocate s m ptr l).2.2.getLast?
        = some (Event.fwdDeallocate ptr l.size l.align)
    ∧ (Z.deallocate s m ptr l).2.2.filter Event.isForward
        = [Event.fwdDeallocate ptr l.size l.align]
    ∧ (G.dealloc s m ptr l).1 = G.wrapped.dealloc s ptr l
    ∧ (G.dealloc s m ptr l).2.1 = zero m ptr l.size
    ∧ (G.dealloc s m ptr l).2.2
        = zeroEvents ptr l.size ++ [Event.fwdDealloc ptr l.size l.align]
    ∧ (G.dealloc s m ptr l).2.2.getLast?
        = some (Event.fwdDealloc ptr l.size l.align)
    ∧ (G.dealloc s m ptr l).2.2.filter Event.isForward
        = [Event.fwdDealloc ptr l.size l.align] := by
  refine ⟨rfl, rfl, rfl, List.getLast?_concat _, ?_, rfl, rfl, rfl,
    List.getLast?_concat _, ?_⟩ <;>
    simp [ZeroizingAllocator.deallocate, ZeroizingGlobalAllocator.dealloc,
      List.filter_append, zeroEvents_no_forward, Event.isForward]

/-- C3: the `zero` primitive's trace carries a volatile (non-elidable,
by the meaning of the `store` event) zero store to every byte of the
non-wrapping range `[ptr, ptr + size)`, every one of its events is such
a store or the compiler fence, the fence is its last event — so every
store is completed before the call returns — and the resulting memory
reads 0 on the whole range. -/
theorem C3_zero_volatile_stores_then_fence (m : Mem) (ptr size : Nat)
    (hmax : size ≤ isizeMax) (hfit : ptr + size ≤ 2 ^ 64) :
    (∀ a, ptr ≤ a → a < ptr + size → Event.store a 0 ∈ zeroEvents ptr size)
    ∧ (∀ e ∈ zeroEvents ptr size, e = Event.fence ∨ ∃ a, e = Event.store a 0)
    ∧ (zeroEvents ptr size).getLast? = some Event.fence
    ∧ (∀ a, ptr ≤ a → a < ptr + size → zero m ptr size a = 0) :=
  ⟨fun a ha hb => zeroEvents_store_mem ptr size a hmax hfit ha hb,
   zeroEvents_shape ptr size,
   zeroEvents_getLast ptr size,
   fun a ha hb => zero_reads_zero m ptr size a hmax hfit ha hb⟩

/-- Witness for C3: zeroing 2 bytes at address 10 stores 0 at byte 11
and leaves it reading 0. -/
theorem C3_zero_volatile_stores_then_fence_witness :
    Event.store 11 0 ∈ zeroEvents 10 2 ∧ zero (fun _ => 9) 10 2 11 = 0 :=
  ⟨(C3_zero_volatile_stores_then_fence (fun _ => 9) 10 2
      (by norm_num [isizeMax]) (by norm_num)).1 11 (by norm_num) (by norm_num),
   (C3_zero_volatile_stores_then_fence (fun _ => 9) 10 2
      (by norm_num [isizeMax]) (by norm_num)).2.2.2 11 (by norm_num) (by norm_num)⟩

/-- C4: both allocation paths return exactly the wrapped allocator's
result; in particular a structured `AllocError` failure of the scoped
path and the null (0) sentinel of the global path are surfaced
unchanged, with no retry, recovery or alteration. -/
theorem C4_allocation_failure_surfaced {σ : Type} (Z : ZeroizingAllocator σ)
    (G : ZeroizingGlobalAllocator σ) (s t : σ) (l : Layout) (e : AllocError) :
    ((Z.allocate s l).1 = Z.wrapped.allocate s l)
    ∧ ((G.alloc s l).1 = G.wrapped.alloc s l)
    ∧ (Z.wrapped.allocate s l = (Except.error e, t)
        → (Z.allocate s l).1 = (Except.error e, t))
    ∧ (G.wrapped.alloc s l = (0, t) → (G.alloc s l).1 = (0, t)) :=
  ⟨rfl, rfl, fun h => h, fun h => h⟩

/-- Witness for C4: an always-failing wrapped allocator's `AllocError`
and an always-null wrapped global allocator's 0 address pass through the
adapters unchanged. -/
theorem C4_allocation_failure_surfaced_witness :
    ((⟨failAllocator⟩ : ZeroizingAllocator Nat).allocate 3 ⟨4, 1⟩).1
        = (Except.error AllocError.mk, 3)
    ∧ ((⟨nullGlobalAlloc⟩ : ZeroizingGlobalAllocator Nat).alloc 3 ⟨4, 1⟩).1
        = (0, 3) :=
  ⟨(C4_allocation_failure_surfaced ⟨failAllocator⟩ ⟨nullGlobalAlloc⟩ 3 3 ⟨4, 1⟩
      AllocError.mk).2.2.1 rfl,
   (C4_allocation_failure_surfaced ⟨failAllocator⟩ ⟨nullGlobalAlloc⟩ 3 3 ⟨4, 1⟩
      AllocError.mk).2.2.2 rfl⟩

/-- C5: the global adapter's `alloc_zeroed` returns exactly the wrapped
allocator's `alloc_zeroed` result, and its trace — a single forwarded
call — contains no store: the adapter performs no zeroing of its own on
the allocation path. -/
theorem C5_alloc_zeroed_pure_delegation {σ : Type} (G : ZeroizingGlobalAllocator σ)
    (s : σ) (l : Layout) :
    (G.alloc_zeroed s l).1 = G.wrapped.alloc_zeroed s l
    ∧ (G.alloc_zeroed s l).2 = [Event.fwdAllocZeroed l.size l.align]
    ∧ (∀ a v, Event.store a v ∉ (G.alloc_zeroed s l).2) := by
  refine ⟨rfl, rfl, ?_⟩
  intro a v
  simp [ZeroizingGlobalAllocator.alloc_zeroed]

/-- Witness for C5: `alloc_zeroed` through the adapter over the bump
allocator at state 3 returns the wrapped result and no store event. -/
theorem C5_alloc_zeroed_pure_delegation_witness :
    ((⟨demoGlobalAlloc⟩ : ZeroizingGlobalAllocator Nat).alloc_zeroed 3 ⟨4, 1⟩).1
        = (3, 7)
    ∧ Event.store 3 0
        ∉ ((⟨demoGlobalAlloc⟩ : ZeroizingGlobalAllocator Nat).alloc_zeroed 3 ⟨4, 1⟩).2 :=
  ⟨by rw [(C5_alloc_zeroed_pure_delegation ⟨demoGlobalAlloc⟩ 3 ⟨4, 1⟩).1]; rfl,
   (C5_alloc_zeroed_pure_delegation ⟨demoGlobalAlloc⟩ 3 ⟨4, 1⟩).2.2 3 0⟩

/-- C8: the adapters are stateless delegators.  An adapter is determined
by its wrapped allocator — the single field is its entire state — and
every operation's outcome depends only on that field: operations on the
pure, `&self`-receiver methods leave no adapter state to mutate between
calls. -/
theorem C8_adapters_stateless {σ : Type} (s : σ) (m : Mem) (ptr : Nat) (l : Layout) :
    (∀ Z1 Z2 : ZeroizingAllocator σ, Z1.wrapped = Z2.wrapped → Z1 = Z2)
    ∧ (∀ G1 G2 : ZeroizingGlobalAllocator σ, G1.wrapped = G2.wrapped → G1 = G2)
    ∧ (∀ Z1 Z2 : ZeroizingAllocator σ, Z1.wrapped = Z2.wrapped →
        Z1.allocate s l = Z2.allocate s l
          ∧ Z1.deallocate s m ptr l = Z2.deallocate s m ptr l)
    ∧ (∀ G1 G2 : ZeroizingGlobalAllocator σ, G1.wrapped = G2.wrapped →
        G1.alloc s l = G2.alloc s l
          ∧ G1.alloc_zeroed s l = G2.alloc_zeroed s l
          ∧ G1.dealloc s m ptr l = G2.dealloc s m ptr l) := by
  refine ⟨?_, ?_, ?_, ?_⟩
  · rintro ⟨w1⟩ ⟨w2⟩ h
    cases h
    rfl
  · rintro ⟨w1⟩ ⟨w2⟩ h
    cases h
    rfl
  · rintro ⟨w1⟩ ⟨w2⟩ h
    cases h
    exact ⟨rfl, rfl⟩
  · rintro ⟨w1⟩ ⟨w2⟩ h
    cases h
    exact ⟨rfl, rfl, rfl⟩

/-- Witness for C8: two adapter values over the same bump allocator are
one and the same adapter. -/
theorem C8_adapters_stateless_witness :
    (⟨demoAllocator⟩ : ZeroizingAllocator Nat) = ⟨demoAllocator⟩
    ∧ (⟨demoGlobalAlloc⟩ : ZeroizingGlobalAllocator Nat) = ⟨demoGlobalAlloc⟩ :=
  ⟨(C8_adapters_stateless 0 (fun _ => 0) 0 ⟨1, 1⟩).1 ⟨demoAllocator⟩
      ⟨demoAllocator⟩ rfl,
   (C8_adapters_stateless 0 (fun _ => 0) 0 ⟨1, 1⟩).2.1 ⟨demoGlobalAlloc⟩
      ⟨demoGlobalAlloc⟩ rfl⟩
